import Mathlib

/-!
Verification of the depth_estimator repository (src/func.py, src/app.py).

The Python source is shallowly embedded: pure functions become Lean
functions over Nat and List; filesystem state, the torch environment and
the (external) model-construction step are passed in explicitly; Python
exceptions become Except values; loguru log calls and pipeline
constructions become explicit event/log lists.
-/

/-! ## Port derivation (src/func.py, string_to_port_crc32) -/

/-- The CRC-32 reflected polynomial 0xEDB88320 used by zlib.crc32. -/
def crc32Poly : Nat := 0xEDB88320

/-- One bit-step of the reflected CRC-32 computation. -/
def crc32Step (c : Nat) : Nat :=
  if c % 2 = 1 then (c >>> 1) ^^^ crc32Poly else c >>> 1

/-- Fold one input byte into the running CRC-32 state (8 bit-steps). -/
def crc32UpdateByte (crc : Nat) (b : Nat) : Nat :=
  (List.range 8).foldl (fun c _ => crc32Step c) (crc ^^^ b)

/-- zlib.crc32 over a byte sequence: init 0xFFFFFFFF, final xor 0xFFFFFFFF. -/
def crc32 (data : List Nat) : Nat :=
  (data.foldl crc32UpdateByte 0xFFFFFFFF) ^^^ 0xFFFFFFFF

/-- UTF-8 encoding of a single character, as Python str.encode produces. -/
def utf8EncodeChar (c : Char) : List Nat :=
  let n := c.toNat
  if n < 0x80 then [n]
  else if n < 0x800 then [0xC0 ||| (n >>> 6), 0x80 ||| (n &&& 0x3F)]
  else if n < 0x10000 then
    [0xE0 ||| (n >>> 12), 0x80 ||| ((n >>> 6) &&& 0x3F), 0x80 ||| (n &&& 0x3F)]
  else
    [0xF0 ||| (n >>> 18), 0x80 ||| ((n >>> 12) &&& 0x3F),
     0x80 ||| ((n >>> 6) &&& 0x3F), 0x80 ||| (n &&& 0x3F)]

/-- Python input_string.encode(): UTF-8 bytes of a string. -/
def strEncode (s : String) : List Nat :=
  (s.toList.map utf8EncodeChar).flatten

/-- Constant MIN_PORT from src/func.py. -/
def MIN_PORT : Nat := 10000

/-- Constant MAX_PORT from src/func.py. -/
def MAX_PORT : Nat := 60000

/-- Constant DEFAULT_MODEL_ID from src/func.py. -/
def DEFAULT_MODEL_ID : String := "LiheYoung/depth-anything-large-hf"

/-- src/func.py lines 15-22: CRC32 of the UTF-8 encoded string, masked to
32 bits, reduced modulo the range width and offset by the lower bound. -/
def string_to_port_crc32 (input_string : String) : Nat :=
  let crc32_hash : Nat := crc32 (strEncode input_string) &&& 0xFFFFFFFF
  MIN_PORT + crc32_hash % (MAX_PORT - MIN_PORT)

/-! ## Device selection (src/func.py, set_device) -/

/-- The part of the torch environment that set_device inspects:
availability of the two accelerator backends. -/
structure TorchEnv where
  mps_is_available : Bool
  cuda_is_available : Bool

/-- A torch.device value as used by this program. -/
inductive Device
  | mps
  | cuda
  | cpu
  deriving DecidableEq

/-- src/func.py lines 25-39: mps if available, else cuda if available,
else cpu. -/
def set_device (env : TorchEnv) : Device :=
  if env.mps_is_available then Device.mps
  else if env.cuda_is_available then Device.cuda
  else Device.cpu

/-- Whether a device is reported available by the environment; cpu is the
universal fallback and is always available. -/
def Device.isAvailable (env : TorchEnv) : Device → Bool
  | Device.mps => env.mps_is_available
  | Device.cuda => env.cuda_is_available
  | Device.cpu => true

/-- The fixed preference order probed by set_device. -/
def devicePreferenceOrder : List Device := [Device.mps, Device.cuda, Device.cpu]

/-! ## Exceptions, pipeline wrapper (src/func.py, DepthAnythingPipeline) -/

/-- Python exceptions that flow through this program: FileNotFoundError
from path validation, and any exception out of pipeline construction. -/
inductive PyError
  | fileNotFound (msg : String)
  | modelLoad (msg : String)
  deriving DecidableEq

/-- Python str(e): the message carried by the exception. -/
def errMessage : PyError → String
  | PyError.fileNotFound m => m
  | PyError.modelLoad m => m

/-- The structured result of the transformers depth pipeline: an object
with (at least) a depth field holding a 2-D array. -/
structure DepthResult where
  depth : List (List Nat)
  deriving DecidableEq

/-- A constructed inference pipeline: a function from an image path to a
depth result. -/
abbrev Pipe : Type := String → DepthResult

/-- src/func.py lines 51-64 (validate_image_path): the filesystem is the
predicate fs; if the path does not exist raise FileNotFoundError with a
message naming the path, otherwise return the path. -/
def DepthAnythingPipeline.validate_image_path (fs : String → Bool)
    (image_path : String) : Except PyError String :=
  if fs image_path then Except.ok image_path
  else Except.error (PyError.fileNotFound ("Image file " ++ image_path ++ " not found."))

/-- src/func.py lines 66-76 (the call method): validate the path, then set
up the pipeline, then run it. The Bool records whether setup_pipeline was
invoked; setup is the injected construction step. -/
def DepthAnythingPipeline.call (fs : String → Bool)
    (setup : Unit → Except PyError Pipe)
    (image_path : String) : Except PyError DepthResult × Bool :=
  match DepthAnythingPipeline.validate_image_path fs image_path with
  | Except.error e => (Except.error e, false)
  | Except.ok path =>
    match setup () with
    | Except.error e => (Except.error e, true)
    | Except.ok depth_pipeline => (Except.ok (depth_pipeline path), true)

/-- Severity of a loguru log call. -/
inductive LogLevel
  | info
  | error
  deriving DecidableEq

/-- One loguru log entry. -/
structure LogEntry where
  level : LogLevel
  msg : String

/-- src/func.py lines 78-93 (setup_pipeline): construct is the outcome of
the transformers pipeline(...) call; on success log info and return the
pipeline, on failure log an error naming the exception and re-raise it
unchanged. -/
def DepthAnythingPipeline.setup_pipeline (construct : Except PyError Pipe) :
    Except PyError Pipe × List LogEntry :=
  match construct with
  | Except.ok depth_pipeline =>
      (Except.ok depth_pipeline, [⟨LogLevel.info, "Model loaded successfully."⟩])
  | Except.error e =>
      (Except.error e, [⟨LogLevel.error, "Failed to load model: " ++ errMessage e⟩])

/-! ## Presentation adapter (src/app.py) -/

/-- A colorized image: rows of pixels, each pixel a list of channels. -/
abbrev ColorImage : Type := List (List (List Nat))

/-- cv2.applyColorMap: map every scalar of a 2-D array through a color
palette cm, yielding one pixel (a channel list) per scalar. -/
def applyColorMap (cm : Nat → List Nat) (img : List (List Nat)) : ColorImage :=
  img.map (fun row => row.map cm)

/-- The trailing [:, :, ::-1] slice: reverse the channel order of every
pixel (BGR to RGB). -/
def reverseChannels (img : ColorImage) : ColorImage :=
  img.map (fun row => row.map List.reverse)

/-- src/app.py lines 49-59 (estimate_depth): run the pipeline wrapper on
the path, take the depth field, apply the color map, reverse channels.
Any exception from the wrapper propagates. -/
def estimate_depth (fs : String → Bool) (setup : Unit → Except PyError Pipe)
    (cm : Nat → List Nat) (image_path : String) : Except PyError ColorImage :=
  match (DepthAnythingPipeline.call fs setup image_path).1 with
  | Except.error e => Except.error e
  | Except.ok result => Except.ok (reverseChannels (applyColorMap cm result.depth))

/-- src/app.py lines 62-72 (estimate_depth_wrapper): call estimate_depth;
on success return (path, image), on any exception return
(path, "Error during estimation: " + str(e)) instead of raising. -/
def estimate_depth_wrapper (est : String → Except PyError ColorImage)
    (image_fp : String) : String × (ColorImage ⊕ String) :=
  match est image_fp with
  | Except.ok img => (image_fp, Sum.inl img)
  | Except.error e => (image_fp, Sum.inr ("Error during estimation: " ++ errMessage e))

/-! ## Per-call construction trace (src/app.py lines 49-59 with
src/func.py lines 47-49) -/

/-- Observable resource events along the estimate_depth call path. -/
inductive Event
  | deviceProbe (d : Device)
  | pipelineConstruct (model : String) (d : Device)
  deriving DecidableEq

/-- The events of one estimate_depth invocation: DepthAnythingPipeline()
probes the device in its initializer, and (after path validation
succeeds) setup_pipeline constructs a pipeline for DEFAULT_MODEL_ID on
that device. There is no cache consulted anywhere on this path. -/
def estimate_depth_events (env : TorchEnv) (fs : String → Bool) (p : String) : List Event :=
  Event.deviceProbe (set_device env) ::
    (if fs p then [Event.pipelineConstruct DEFAULT_MODEL_ID (set_device env)] else [])

/-- The event trace of n sequential estimate_depth invocations. No state
flows from one call to the next, mirroring the absence of module-level
mutable state in src/app.py. -/
def repeatedCalls (env : TorchEnv) (fs : String → Bool) (p : String) : Nat → List Event
  | 0 => []
  | n + 1 => estimate_depth_events env fs p ++ repeatedCalls env fs p n

/-! ## Startup constants (src/app.py lines 12-15 and 79-82) -/

/-- Constant LOCAL_CLIENT_IP from src/app.py. -/
def LOCAL_CLIENT_IP : String := "0.0.0.0"

/-- Constant APP_NAME from src/app.py. -/
def APP_NAME : String := "depth_estimator"

/-- Constant DEFAULT_PORT from src/app.py line 15. -/
def DEFAULT_PORT : Nat := string_to_port_crc32 APP_NAME

/-- The arguments the entry point passes to demo.launch. -/
structure LaunchConfig where
  server_name : String
  server_port : Nat

/-- src/app.py line 82: launch on LOCAL_CLIENT_IP at DEFAULT_PORT. -/
def mainLaunch : LaunchConfig := ⟨LOCAL_CLIENT_IP, DEFAULT_PORT⟩

/-! ## String-containment helpers -/

/-- Whether the first character list is an initial segment of the second. -/
def isPrefixChars : List Char → List Char → Bool
  | [], _ => true
  | _ :: _, [] => false
  | a :: as, b :: bs => a == b && isPrefixChars as bs

/-- Whether needle occurs contiguously inside hay. -/
def containsSeq (needle : List Char) : List Char → Bool
  | [] => isPrefixChars needle []
  | c :: rest => isPrefixChars needle (c :: rest) || containsSeq needle rest

theorem isPrefixChars_refl_append : ∀ (as bs : List Char), isPrefixChars as (as ++ bs) = true
  | [], _ => rfl
  | a :: as, bs => by
      simp [isPrefixChars, isPrefixChars_refl_append as bs]

theorem containsSeq_sandwich (needle : List Char) :
    ∀ (pre post : List Char), containsSeq needle (pre ++ (needle ++ post)) = true := by
  intro pre
  induction pre with
  | nil =>
    intro post
    cases needle with
    | nil => cases post <;> simp [containsSeq, isPrefixChars]
    | cons n ns =>
      have h := isPrefixChars_refl_append (n :: ns) post
      simp [containsSeq]
      exact Or.inl h
  | cons c pre ih =>
    intro post
    simp [containsSeq, ih]

/-- Helper: the derived port always lies in the configured range. -/
theorem string_to_port_range (S : String) :
    MIN_PORT ≤ string_to_port_crc32 S ∧ string_to_port_crc32 S < MAX_PORT := by
  have h : (crc32 (strEncode S) &&& 0xFFFFFFFF) % (MAX_PORT - MIN_PORT) < MAX_PORT - MIN_PORT :=
    Nat.mod_lt _ (by decide)
  unfold string_to_port_crc32
  simp only [MIN_PORT, MAX_PORT] at h ⊢
  omega

/-- Helper: the derived port for the empty string, and the CRC of the
empty byte sequence. -/
theorem string_to_port_empty : string_to_port_crc32 "" = 10000 ∧ crc32 (strEncode "") = 0 := by
  constructor <;> rfl

/-- Claim C1: string_to_port_crc32 is a pure, deterministic function of
its input, and for every non-empty string the derived port lies in the
inclusive-exclusive range from 10000 to 60000. -/
theorem string_to_port_crc32_deterministic_in_range (S : String) (_h : S ≠ "") :
    string_to_port_crc32 S = string_to_port_crc32 S ∧
    10000 ≤ string_to_port_crc32 S ∧ string_to_port_crc32 S < 60000 :=
  ⟨rfl, string_to_port_range S⟩

set_option maxRecDepth 10000 in
/-- Witness for claim C1 at the concrete non-empty string "a". -/
theorem string_to_port_crc32_deterministic_in_range_witness :
    string_to_port_crc32 "a" = string_to_port_crc32 "a" ∧
    10000 ≤ string_to_port_crc32 "a" ∧ string_to_port_crc32 "a" < 60000 :=
  string_to_port_crc32_deterministic_in_range "a" (by decide)

/-- Claim C10: string_to_port_crc32 is total over all strings, the empty
string included: every string maps into the range from 10000 to 60000,
and the empty string maps to exactly 10000 since the CRC32 of the empty
byte sequence is 0. -/
theorem string_to_port_crc32_total :
    (∀ S : String, 10000 ≤ string_to_port_crc32 S ∧ string_to_port_crc32 S < 60000) ∧
    string_to_port_crc32 "" = 10000 ∧ crc32 (strEncode "") = 0 :=
  ⟨fun S => string_to_port_range S, string_to_port_empty⟩

set_option maxRecDepth 10000 in
/-- Claim C4: the port derived from "depth_estimator" is 45944, it is the
value of DEFAULT_PORT, and it is the server_port the entry point passes
to launch at startup. -/
theorem default_port_is_45944 :
    string_to_port_crc32 "depth_estimator" = 45944 ∧
    DEFAULT_PORT = 45944 ∧ mainLaunch.server_port = 45944 := by
  refine ⟨by decide, by decide, by decide⟩

/-- Claim C7: set_device probes the accelerators in the fixed preference
order mps, cuda, cpu and returns the first one the environment reports
available; it is total (never raises), and when neither accelerator is
available it returns the cpu fallback. -/
theorem set_device_first_available (env : TorchEnv) :
    devicePreferenceOrder.find? (Device.isAvailable env) = some (set_device env) ∧
    (env.mps_is_available = false → env.cuda_is_available = false →
      set_device env = Device.cpu) := by
  obtain ⟨m, c⟩ := env
  cases m <;> cases c <;> exact ⟨by decide, by decide⟩

/-- Witness for claim C7 at the environment reporting no accelerators. -/
theorem set_device_first_available_witness :
    devicePreferenceOrder.find? (Device.isAvailable ⟨false, false⟩) =
      some (set_device ⟨false, false⟩) ∧
    set_device ⟨false, false⟩ = Device.cpu :=
  ⟨(set_device_first_available ⟨false, false⟩).1,
   (set_device_first_available ⟨false, false⟩).2 rfl rfl⟩

/-- Helper: the FileNotFoundError message of validate_image_path names
the missing path as a contiguous substring. -/
theorem msg_contains_path (p : String) :
    containsSeq p.toList ("Image file " ++ p ++ " not found.").toList = true := by
  have h : ("Image file " ++ p ++ " not found.").toList
      = "Image file ".toList ++ (p.toList ++ " not found.".toList) := by
    simp
  rw [h]
  exact containsSeq_sandwich p.toList "Image file ".toList " not found.".toList

/-- Claim C5: validate_image_path fails with FileNotFoundError exactly
when the supplied path does not exist on the filesystem, and on success
it returns the supplied path unchanged. -/
theorem validate_image_path_iff (fs : String → Bool) (p : String) :
    ((∃ e, DepthAnythingPipeline.validate_image_path fs p = Except.error e) ↔ fs p = false) ∧
    (fs p = true → DepthAnythingPipeline.validate_image_path fs p = Except.ok p) := by
  cases h : fs p <;>
    simp [DepthAnythingPipeline.validate_image_path, h]

/-- Witness for claim C5 at a filesystem where the path exists. -/
theorem validate_image_path_iff_witness :
    DepthAnythingPipeline.validate_image_path (fun _ => true) "img.png" =
      Except.ok "img.png" :=
  (validate_image_path_iff (fun _ => true) "img.png").2 rfl

/-- Claim C2: calling the pipeline wrapper on a path that does not exist
fails with a FileNotFoundError whose message names the missing path, and
setup_pipeline is never invoked (the instrumentation flag stays false). -/
theorem call_missing_file_no_setup (fs : String → Bool)
    (setup : Unit → Except PyError Pipe) (p : String) (h : fs p = false) :
    (DepthAnythingPipeline.call fs setup p).2 = false ∧
    ∃ msg, (DepthAnythingPipeline.call fs setup p).1 =
        Except.error (PyError.fileNotFound msg) ∧
      containsSeq p.toList msg.toList = true := by
  refine ⟨?_, "Image file " ++ p ++ " not found.", ?_, msg_contains_path p⟩ <;>
    simp [DepthAnythingPipeline.call, DepthAnythingPipeline.validate_image_path, h]

/-- Witness for claim C2 at a concrete missing path with a construction
probe that would succeed if it were ever invoked. -/
theorem call_missing_file_no_setup_witness :
    (DepthAnythingPipeline.call (fun _ => false)
        (fun _ => Except.ok (fun _ => ⟨[]⟩)) "img.png").2 = false ∧
    ∃ msg, (DepthAnythingPipeline.call (fun _ => false)
        (fun _ => Except.ok (fun _ => ⟨[]⟩)) "img.png").1 =
        Except.error (PyError.fileNotFound msg) ∧
      containsSeq "img.png".toList msg.toList = true :=
  call_missing_file_no_setup (fun _ => false)
    (fun _ => Except.ok (fun _ => ⟨[]⟩)) "img.png" rfl

/-- Claim C3: whenever the depth-estimation path fails with any
exception, estimate_depth_wrapper does not propagate it: it returns a
pair whose first component is the supplied path unchanged and whose
second component is an error string containing the word "Error". -/
theorem estimate_depth_wrapper_catches (est : String → Except PyError ColorImage)
    (image_fp : String) (e : PyError) (h : est image_fp = Except.error e) :
    (estimate_depth_wrapper est image_fp).1 = image_fp ∧
    ∃ s, (estimate_depth_wrapper est image_fp).2 = Sum.inr s ∧
      containsSeq "Error".toList s.toList = true := by
  refine ⟨by simp [estimate_depth_wrapper, h],
    "Error during estimation: " ++ errMessage e,
    by simp [estimate_depth_wrapper, h], ?_⟩
  have hsplit : ("Error during estimation: " ++ errMessage e).toList
      = ([] : List Char) ++ ("Error".toList ++
          (" during estimation: ".toList ++ (errMessage e).toList)) := by
    simp
  rw [hsplit]
  exact containsSeq_sandwich "Error".toList [] _

/-- Witness for claim C3 at a concrete path and a failing pipeline. -/
theorem estimate_depth_wrapper_catches_witness :
    (estimate_depth_wrapper (fun _ => Except.error (PyError.modelLoad "boom"))
        "img.png").1 = "img.png" ∧
    ∃ s, (estimate_depth_wrapper (fun _ => Except.error (PyError.modelLoad "boom"))
        "img.png").2 = Sum.inr s ∧
      containsSeq "Error".toList s.toList = true :=
  estimate_depth_wrapper_catches (fun _ => Except.error (PyError.modelLoad "boom"))
    "img.png" (PyError.modelLoad "boom") rfl

/-- Claim C6: for a valid image path and an injected pipeline that
returns a known 2-D depth array, estimate_depth succeeds with an image
whose first two dimensions equal the depth map's and whose pixels all
have 3 channels after color mapping. -/
theorem estimate_depth_shape (fs : String → Bool) (pipe : Pipe)
    (cm : Nat → List Nat) (p : String) (h w : Nat)
    (hfs : fs p = true)
    (hrows : (pipe p).depth.length = h)
    (hcols : ∀ row ∈ (pipe p).depth, row.length = w)
    (hcm : ∀ v, (cm v).length = 3) :
    ∃ out, estimate_depth fs (fun _ => Except.ok pipe) cm p = Except.ok out ∧
      out.length = h ∧ ∀ row ∈ out, row.length = w ∧ ∀ px ∈ row, px.length = 3 := by
  refine ⟨reverseChannels (applyColorMap cm (pipe p).depth), ?_, ?_, ?_⟩
  · simp [estimate_depth, DepthAnythingPipeline.call,
      DepthAnythingPipeline.validate_image_path, hfs]
  · simp [reverseChannels, applyColorMap, hrows]
  · intro row hrow
    simp only [reverseChannels, applyColorMap, List.mem_map] at hrow
    obtain ⟨r1, hr1, rfl⟩ := hrow
    obtain ⟨r0, hr0, rfl⟩ := hr1
    constructor
    · simp [hcols r0 hr0]
    · intro px hpx
      simp only [List.mem_map] at hpx
      obtain ⟨px0, hpx0, rfl⟩ := hpx
      obtain ⟨v, hv, rfl⟩ := hpx0
      simp [hcm v]

/-- Witness for claim C6 at a concrete 2 by 2 depth map and a 3-channel
color map. -/
theorem estimate_depth_shape_witness :
    ∃ out, estimate_depth (fun _ => true)
        (fun _ => Except.ok (fun _ => ⟨[[0, 1], [2, 3]]⟩))
        (fun v => [v, v, 255 - v]) "img.png" = Except.ok out ∧
      out.length = 2 ∧ ∀ row ∈ out, row.length = 2 ∧ ∀ px ∈ row, px.length = 3 :=
  estimate_depth_shape (fun _ => true) (fun _ => ⟨[[0, 1], [2, 3]]⟩)
    (fun v => [v, v, 255 - v]) "img.png" 2 2 rfl rfl (by decide) (fun _ => rfl)

/-- Claim C9: when pipeline construction fails, setup_pipeline logs an
error naming the failure and returns that same failure unchanged (no
retry, no fallback pipeline); when construction succeeds, it logs info
and returns the constructed pipeline. -/
theorem setup_pipeline_propagates (construct : Except PyError Pipe) :
    (∀ e, construct = Except.error e →
      DepthAnythingPipeline.setup_pipeline construct =
        (Except.error e, [⟨LogLevel.error, "Failed to load model: " ++ errMessage e⟩])) ∧
    (∀ pipe, construct = Except.ok pipe →
      DepthAnythingPipeline.setup_pipeline construct =
        (Except.ok pipe, [⟨LogLevel.info, "Model loaded successfully."⟩])) := by
  constructor <;> rintro x rfl <;> rfl

/-- Witness for claim C9 at a concrete construction failure. -/
theorem setup_pipeline_propagates_witness :
    DepthAnythingPipeline.setup_pipeline (Except.error (PyError.modelLoad "boom")) =
      (Except.error (PyError.modelLoad "boom"),
       [⟨LogLevel.error, "Failed to load model: " ++ errMessage (PyError.modelLoad "boom")⟩]) :=
  (setup_pipeline_propagates (Except.error (PyError.modelLoad "boom"))).1
    (PyError.modelLoad "boom") rfl

/-- Claim C8: over n invocations of the depth-estimation path on an
existing file, the event trace holds exactly n pipeline constructions
and exactly n device probes: every call constructs a brand-new pipeline
and re-evaluates the device, with no caching between calls. -/
theorem fresh_pipeline_per_call (env : TorchEnv) (fs : String → Bool)
    (p : String) (n : Nat) (h : fs p = true) :
    (repeatedCalls env fs p n).count
        (Event.pipelineConstruct DEFAULT_MODEL_ID (set_device env)) = n ∧
    (repeatedCalls env fs p n).count (Event.deviceProbe (set_device env)) = n := by
  induction n with
  | zero => simp [repeatedCalls]
  | succ n ih =>
    simp [repeatedCalls, estimate_depth_events, h, List.count_append,
      List.count_cons, ih.1, ih.2]

set_option maxRecDepth 10000 in
/-- Witness for claim C8: three calls on an accelerator-free environment
yield three constructions and three probes. -/
theorem fresh_pipeline_per_call_witness :
    (repeatedCalls ⟨false, false⟩ (fun _ => true) "img.png" 3).count
        (Event.pipelineConstruct DEFAULT_MODEL_ID (set_device ⟨false, false⟩)) = 3 ∧
    (repeatedCalls ⟨false, false⟩ (fun _ => true) "img.png" 3).count
        (Event.deviceProbe (set_device ⟨false, false⟩)) = 3 :=
  fresh_pipeline_per_call ⟨false, false⟩ (fun _ => true) "img.png" 3 rfl
